import Mathlib

/-!
Shallow embedding of the MultiMAE / MultiViT core from
src/experiment/rgbd_sod/main.py.

Tensors are modelled at shape level: a tensor of shape (B, C, H, W) is the
tuple of its dimensions, and token sequences used for index bookkeeping are
plain lists.  Fallible Python code (asserts, KeyError, shape mismatches in
reshape / rearrange / torch.cat / conv and interpolate preconditions) is
modelled with Except String.
-/

set_option autoImplicit false

namespace MultiMAE

instance {ε α : Type} [DecidableEq ε] [DecidableEq α] : DecidableEq (Except ε α) := fun x y =>
  match x, y with
  | .error a, .error b => if h : a = b then .isTrue (by rw [h]) else .isFalse (by simp [h])
  | .ok a, .ok b => if h : a = b then .isTrue (by rw [h]) else .isFalse (by simp [h])
  | .error _, .ok _ => .isFalse (by simp)
  | .ok _, .error _ => .isFalse (by simp)

/-- Per-task entry of the Input Info record built by
MultiMAE.generate_input_info. -/
structure TaskInfo where
  num_tokens : Nat
  has_2d_posemb : Bool
  start_idx : Nat
  end_idx : Nat
deriving DecidableEq

/-- Input Info record: insertion-ordered task map plus image size and token
counters, as built by MultiMAE.generate_input_info. -/
structure InputInfo where
  tasks : List (String × TaskInfo)
  image_size : Nat × Nat
  num_task_tokens : Nat
  num_global_tokens : Nat
deriving DecidableEq

/-- Loop body of MultiMAE.generate_input_info: walks the (insertion ordered)
task-token map keeping the running counter i, and returns the per-task
entries together with the final counter. -/
def buildTaskEntries (i : Nat) : List (String × Nat) → List (String × TaskInfo) × Nat
  | [] => ([], i)
  | (domain, num_tokens) :: rest =>
    let d : TaskInfo := ⟨num_tokens, true, i, i + num_tokens⟩
    let (ts, fin) := buildTaskEntries (i + num_tokens) rest
    ((domain, d) :: ts, fin)

/-- Embedding of MultiMAE.generate_input_info.  input_task_tokens is the list
of (domain, number of tokens of that domain), in dict insertion order. -/
def generate_input_info (input_task_tokens : List (String × Nat))
    (image_size : Nat × Nat) (num_global_tokens : Nat) : InputInfo :=
  let (tasks, i) := buildTaskEntries 0 input_task_tokens
  ⟨tasks, image_size, i, num_global_tokens⟩

section TokenLevel

variable {α β : Type}

/-- Token-level view of the concatenation torch.cat over
input_task_tokens.values() performed in MultiViT.process_input (before the
global tokens are appended). -/
def fuseTokens (input_task_tokens : List (String × List α)) : List α :=
  (input_task_tokens.map Prod.snd).flatten

/-- Number of tokens of each entry, i.e. the tensor.shape of the value of each
domain as read by generate_input_info. -/
def tokenCounts (input_task_tokens : List (String × List α)) : List (String × Nat) :=
  input_task_tokens.map fun p => (p.1, p.2.length)

/-- The dict comprehension of MultiViT.process_input: only the domains that
appear in self.input_adapters are encoded, every other entry of x is skipped
without an error. -/
def encodeSelected (adapter_names : List String) (encode : String → List α → List β)
    (x : List (String × List α)) : List (String × List β) :=
  (x.filter fun p => adapter_names.contains p.1).map fun p => (p.1, encode p.1 p.2)

end TokenLevel

/-- Shape-level embedding of build_2d_sincos_posemb.  The assert rejects an
embedding dimension not divisible by 4; afterwards the four sin / cos parts
(each of width embed_dim / 4) are concatenated over the w * h grid points and
rearranged to the shape (1, embed_dim, h, w).  The guard mirrors the einops
rearrange constraints (token count h * w, feature width embed_dim). -/
def build_2d_sincos_posemb (h w embed_dim : Nat) : Except String (List Nat) :=
  if embed_dim % 4 ≠ 0 then
    .error "Embed dimension must be divisible by 4 for 2D sin-cos position embedding"
  else
    let pos_dim := embed_dim / 4
    if w * h = h * w ∧ 4 * pos_dim = embed_dim then
      .ok [1, embed_dim, h, w]
    else
      .error "rearrange shape mismatch"

/-- Embedding of the PatchedInputAdapter state after __init__ (and possibly
init): constructor arguments plus the derived fields num_patches, P_H, P_W.
dim_tokens is none until init has run. -/
structure PatchedInputAdapter where
  num_channels : Nat
  stride_level : Nat
  patch_size_full : Nat × Nat
  dim_tokens : Option Nat
  sincos_pos_emb : Bool
  learnable_pos_emb : Bool
  image_size : Nat × Nat
  num_patches : Nat
  P_H : Nat
  P_W : Nat
deriving DecidableEq

/-- Embedding of PatchedInputAdapter.init: stores the token dimension and
builds the positional embedding grid; with sincos_pos_emb it calls
build_2d_sincos_posemb, whose divisibility assert can fail. -/
def PatchedInputAdapter.init (a : PatchedInputAdapter) (dim_tokens : Nat) :
    Except String PatchedInputAdapter :=
  let h_posemb := a.image_size.1 / (a.stride_level * a.P_H)
  let w_posemb := a.image_size.2 / (a.stride_level * a.P_W)
  if a.sincos_pos_emb then
    (build_2d_sincos_posemb h_posemb w_posemb dim_tokens).map
      fun _ => { a with dim_tokens := some dim_tokens }
  else
    .ok { a with dim_tokens := some dim_tokens }

/-- Embedding of PatchedInputAdapter.__init__ (square patch size and image
size, as in the calls of MULTIMAE); when dim_tokens is given it immediately
calls init, as the source does. -/
def PatchedInputAdapter.create (num_channels stride_level patch_size_full : Nat)
    (dim_tokens : Option Nat) (sincos_pos_emb learnable_pos_emb : Bool)
    (image_size : Nat) : Except String PatchedInputAdapter :=
  let a : PatchedInputAdapter :=
    { num_channels := num_channels
      stride_level := stride_level
      patch_size_full := (patch_size_full, patch_size_full)
      dim_tokens := none
      sincos_pos_emb := sincos_pos_emb
      learnable_pos_emb := learnable_pos_emb
      image_size := (image_size, image_size)
      num_patches := (image_size / patch_size_full) * (image_size / patch_size_full)
      P_H := max 1 (patch_size_full / stride_level)
      P_W := max 1 (patch_size_full / stride_level) }
  match dim_tokens with
  | none => .ok a
  | some d => a.init d

/-- Shape-level embedding of PatchedInputAdapter.forward on an input of shape
(B, C, H, W).  In source order: the init assert, the divisibility assert, the
patch projection conv (which needs the channel count of its weight and a
spatial extent of at least one kernel), and the bicubic interpolation of the
positional embedding (which needs nonempty source and target grids).  On
success the result is the token-sequence shape (B, N_H * N_W, dim_tokens). -/
def PatchedInputAdapter.forward (a : PatchedInputAdapter) (B C H W : Nat) :
    Except String (Nat × Nat × Nat) :=
  match a.dim_tokens with
  | none => .error "Need to call init with dim_tokens first"
  | some D =>
    if H % a.P_H = 0 ∧ W % a.P_W = 0 then
      if C = a.num_channels ∧ a.P_H ≤ H ∧ a.P_W ≤ W then
        if 0 < a.image_size.1 / (a.stride_level * a.P_H) ∧
            0 < a.image_size.2 / (a.stride_level * a.P_W) ∧
            0 < H / a.P_H ∧ 0 < W / a.P_W then
          .ok (B, (H / a.P_H) * (W / a.P_W), D)
        else
          .error "interpolate needs positive input and output sizes"
      else
        .error "conv2d input shape mismatch"
    else
      .error "Image sizes must be divisible by patch sizes"

/-- Fuel-based integer square root, modelling the Python expression
int(preds_per_patch ** 0.5) used by ConvNeXtAdapter.forward. -/
def intSqrtAux (n : Nat) : Nat → Nat
  | 0 => 0
  | s + 1 => if (s + 1) * (s + 1) ≤ n then s + 1 else intSqrtAux n s

/-- Integer square root entry point: the largest s with s * s ≤ n. -/
def intSqrt (n : Nat) : Nat := intSqrtAux n n

/-- Embedding of the ConvNeXtAdapter state after __init__ (and possibly
init).  class_dim is embed_dim // preds_per_patch; dim_tokens_enc is none
until init has defined proj_dec. -/
structure ConvNeXtAdapter where
  num_classes : Nat
  embed_dim : Nat
  preds_per_patch : Nat
  main_tasks : List String
  patch_size : Nat
  depth : Nat
  class_dim : Nat
  dim_tokens_enc : Option Nat
deriving DecidableEq

/-- Embedding of ConvNeXtAdapter.__init__: computes class_dim (integer
division, so preds_per_patch = 0 is a ZeroDivisionError) and builds the
ConvNeXt blocks, whose depthwise conv needs a positive group count. -/
def ConvNeXtAdapter.create (num_classes embed_dim preds_per_patch : Nat)
    (main_tasks : List String) (patch_size depth : Nat) :
    Except String ConvNeXtAdapter :=
  if preds_per_patch = 0 then
    .error "integer division by zero"
  else if 0 < depth ∧ embed_dim / preds_per_patch = 0 then
    .error "conv2d groups must be a positive integer"
  else
    .ok ⟨num_classes, embed_dim, preds_per_patch, main_tasks, patch_size, depth,
      embed_dim / preds_per_patch, none⟩

/-- Embedding of ConvNeXtAdapter.init: records the encoder token dimension,
from which in_channels = dim_tokens_enc * len(main_tasks) is derived. -/
def ConvNeXtAdapter.init (a : ConvNeXtAdapter) (dim_tokens_enc : Nat) : ConvNeXtAdapter :=
  { a with dim_tokens_enc := some dim_tokens_enc }

/-- Length of the Python slice encoder_tokens[:, start:end] along a token axis
of length n (Python slicing clamps out-of-range bounds). -/
def sliceLen (n start stop : Nat) : Nat := min stop n - min start n

/-- Loop of ConvNeXtAdapter.adapt_tokens: look every main task up in
input_info["tasks"] (a KeyError if absent) and record the token count of the
selected slice. -/
def lookupSlices (n : Nat) (tasks : List (String × TaskInfo)) :
    List String → Except String (List Nat)
  | [] => .ok []
  | task :: rest =>
    match tasks.lookup task with
    | some t =>
      match lookupSlices n tasks rest with
      | .ok ss => .ok (sliceLen n t.start_idx t.end_idx :: ss)
      | .error e => .error e
    | none => .error "KeyError: main task is absent from input info"

/-- Shape-level embedding of ConvNeXtAdapter.adapt_tokens on encoder tokens of
shape (B, N, D): slices the ranges of the main tasks and concatenates them
along the feature axis, which requires a nonempty list of slices of equal
token counts. -/
def ConvNeXtAdapter.adapt_tokens (a : ConvNeXtAdapter) (B N D : Nat)
    (input_info : InputInfo) : Except String (Nat × Nat × Nat) :=
  match lookupSlices N input_info.tasks a.main_tasks with
  | .error e => .error e
  | .ok slices =>
    match slices with
    | [] => .error "torch.cat expected a non-empty list of tensors"
    | s :: rest =>
      if rest.all fun s2 => s2 = s then
        .ok (B, s, D * (s :: rest).length)
      else
        .error "torch.cat token count mismatch"

/-- Shape-level embedding of ConvNeXtAdapter.forward on encoder tokens of
shape (B, N, D).  In source order: adapt_tokens, the proj_dec linear layer
(which init must have created, with matching input width), the rearrange to
(b, n * p, class_dim), the square rearrange with ph = pw = int(p ** 0.5), the
ConvNeXt blocks (depthwise conv of kernel 7 and padding 3 needs a padded input
of at least 7), the final 1x1 conv, and the bilinear interpolation to the
image size recorded in input info (positive sizes required on both ends). -/
def ConvNeXtAdapter.forward (a : ConvNeXtAdapter) (B N D : Nat)
    (input_info : InputInfo) : Except String (Nat × Nat × Nat × Nat) :=
  let H := input_info.image_size.1
  let W := input_info.image_size.2
  let N_H := H / a.patch_size
  let N_W := W / a.patch_size
  match a.adapt_tokens B N D input_info with
  | .error e => .error e
  | .ok (b, n, d) =>
    match a.dim_tokens_enc with
    | none => .error "AttributeError: proj_dec requires init"
    | some enc =>
      if d ≠ enc * a.main_tasks.length then
        .error "proj_dec input width mismatch"
      else if n ≠ N_H * N_W then
        .error "rearrange token axis mismatch"
      else if a.preds_per_patch * a.class_dim ≠ a.embed_dim then
        .error "rearrange feature axis mismatch"
      else if n * a.preds_per_patch ≠ N_H * N_W * (intSqrt a.preds_per_patch * intSqrt a.preds_per_patch) then
        .error "rearrange square grid mismatch"
      else if 0 < a.depth ∧ (N_H * intSqrt a.preds_per_patch + 6 < 7 ∨
          N_W * intSqrt a.preds_per_patch + 6 < 7) then
        .error "conv2d kernel size exceeds padded input size"
      else if N_H * intSqrt a.preds_per_patch = 0 ∨ N_W * intSqrt a.preds_per_patch = 0 then
        .error "conv2d input is empty"
      else if H = 0 ∨ W = 0 then
        .error "interpolate output size must be positive"
      else
        .ok (b, a.num_classes, H, W)

/-- Embedding of the Attention state after __init__: head_dim is dim //
num_heads. -/
structure Attention where
  dim : Nat
  num_heads : Nat
  head_dim : Nat
deriving DecidableEq

/-- Embedding of Attention.__init__: dim // num_heads needs num_heads to be
nonzero, and head_dim ** -0.5 raises when head_dim is zero.  There is no
divisibility check: a remainder of dim modulo num_heads is silently
discarded here. -/
def Attention.create (dim num_heads : Nat) : Except String Attention :=
  if num_heads = 0 then
    .error "integer division by zero"
  else if dim / num_heads = 0 then
    .error "zero cannot be raised to a negative power"
  else
    .ok ⟨dim, num_heads, dim / num_heads⟩

/-- Shape-level embedding of Attention.forward on tokens of shape (B, N, C):
the qkv linear layer needs C = dim, and the reshape of the (B, N, 3 * C)
result to (B, N, 3, num_heads, C // num_heads) needs the element counts to
agree, which for a nonempty input means num_heads divides C. -/
def Attention.forward (a : Attention) (B N C : Nat) : Except String (Nat × Nat × Nat) :=
  if C ≠ a.dim then
    .error "linear input dimension mismatch"
  else if B * N * (3 * C) ≠ B * N * (3 * (a.num_heads * (C / a.num_heads))) then
    .error "shape invalid for reshape"
  else
    .ok (B, N, C)

/-- Shape-level embedding of Block.forward: layer norms and the Mlp preserve
the shape when the feature width equals the block dimension; the attention
sublayer adds its reshape requirement. -/
def blockForward (dim num_heads : Nat) (t : Nat × Nat × Nat) :
    Except String (Nat × Nat × Nat) :=
  if t.2.2 ≠ dim then
    .error "layer norm dimension mismatch"
  else
    Attention.forward ⟨dim, num_heads, dim / num_heads⟩ t.1 t.2.1 t.2.2

/-- The encoder nn.Sequential: depth successive blocks, returning the final
shape. -/
def encoderForward (dim num_heads : Nat) : Nat → (Nat × Nat × Nat) →
    Except String (Nat × Nat × Nat)
  | 0, t => .ok t
  | d + 1, t =>
    match blockForward dim num_heads t with
    | .ok t2 => encoderForward dim num_heads d t2
    | .error e => .error e

/-- The return_all_layers loop of MultiViT.forward: every intermediate
layer's output shape, in order. -/
def encoderLayers (dim num_heads : Nat) : Nat → (Nat × Nat × Nat) →
    Except String (List (Nat × Nat × Nat))
  | 0, _ => .ok []
  | d + 1, t =>
    match blockForward dim num_heads t with
    | .ok t2 => (encoderLayers dim num_heads d t2).map fun l => t2 :: l
    | .error e => .error e

/-- Embedding of the MultiViT (and MultiMAE) model state after __init__. -/
structure MultiViT where
  input_adapters : List (String × PatchedInputAdapter)
  output_adapters : Option (List (String × ConvNeXtAdapter))
  num_global_tokens : Nat
  dim_tokens : Nat
  depth : Nat
  num_heads : Nat
deriving DecidableEq

/-- The loop of MultiMAE.__init__ that calls adapter.init(dim_tokens) on every
input adapter. -/
def initInputAdapters (d : Nat) : List (String × PatchedInputAdapter) →
    Except String (List (String × PatchedInputAdapter))
  | [] => .ok []
  | (name, a) :: rest =>
    match a.init d with
    | .ok a2 => (initInputAdapters d rest).map fun l => (name, a2) :: l
    | .error e => .error e

/-- Embedding of MultiMAE.__init__ as inherited by MultiViT: initializes every
input adapter with dim_tokens, every output adapter with dim_tokens_enc =
dim_tokens, and builds depth encoder blocks whose Attention construction must
succeed. -/
def MultiViT.create (input_adapters : List (String × PatchedInputAdapter))
    (output_adapters : Option (List (String × ConvNeXtAdapter)))
    (num_global_tokens dim_tokens depth num_heads : Nat) : Except String MultiViT :=
  match initInputAdapters dim_tokens input_adapters with
  | .error e => .error e
  | .ok ins =>
    let outs := output_adapters.map fun l => l.map fun p => (p.1, p.2.init dim_tokens)
    if depth = 0 then
      .ok ⟨ins, outs, num_global_tokens, dim_tokens, depth, num_heads⟩
    else
      match Attention.create dim_tokens num_heads with
      | .error e => .error e
      | .ok _ => .ok ⟨ins, outs, num_global_tokens, dim_tokens, depth, num_heads⟩

/-- Argument of MultiViT.forward: a bare tensor or a dict of tensors, with
tensors carried as shape lists. -/
inductive ModelInput where
  | tensor : List Nat → ModelInput
  | dict : List (String × List Nat) → ModelInput
deriving DecidableEq

/-- The batch / height / width extraction at the top of
MultiViT.process_input: the rgb entry if present, else the semseg entry
(scaled by the stride level of the semseg adapter), else the first entry. -/
def extractBHW (m : MultiViT) (x : List (String × List Nat)) :
    Except String (Nat × Nat × Nat) :=
  match x.lookup "rgb" with
  | some s =>
    match s with
    | [b, _, h, w] => .ok (b, h, w)
    | _ => .error "ValueError: cannot unpack rgb shape"
  | none =>
    match x.lookup "semseg" with
    | some s =>
      match s, m.input_adapters.lookup "semseg" with
      | [b, h, w], some ad => .ok (b, h * ad.stride_level, w * ad.stride_level)
      | _, _ => .error "ValueError: cannot unpack semseg shape"
    | none =>
      match x with
      | (_, s) :: _ =>
        match s with
        | [b, _, h, w] => .ok (b, h, w)
        | _ => .error "ValueError: cannot unpack shape"
      | [] => .error "IndexError: empty input dict"

/-- The dict comprehension of MultiViT.process_input at shape level: each
entry of x whose domain has a registered input adapter is encoded by that
adapter; other entries are skipped. -/
def encodeInputs (adapters : List (String × PatchedInputAdapter)) :
    List (String × List Nat) → Except String (List (String × (Nat × Nat × Nat)))
  | [] => .ok []
  | (domain, shape) :: rest =>
    match adapters.lookup domain with
    | none => encodeInputs adapters rest
    | some ad =>
      match shape with
      | [b, c, h, w] =>
        match ad.forward b c h w with
        | .ok t => (encodeInputs adapters rest).map fun l => (domain, t) :: l
        | .error e => .error e
      | _ => .error "ValueError: input adapter expects a 4D tensor"

/-- The torch.cat along the token axis in MultiViT.process_input: requires a
nonempty list of shapes agreeing on batch and feature dimensions, and sums
the token counts. -/
def catTokensAux (b d : Nat) : List (Nat × Nat × Nat) → Except String Nat
  | [] => .ok 0
  | (b2, n2, d2) :: rest =>
    if b2 = b ∧ d2 = d then
      (catTokensAux b d rest).map fun ns => n2 + ns
    else
      .error "torch.cat shape mismatch"

/-- Concatenation entry point (torch.cat of an empty list raises). -/
def catTokens : List (Nat × Nat × Nat) → Except String (Nat × Nat × Nat)
  | [] => .error "torch.cat expected a non-empty list of tensors"
  | (b, n, d) :: rest => (catTokensAux b d rest).map fun ns => (b, n + ns, d)

/-- Shape-level embedding of MultiViT.process_input: extract (B, H, W), encode
the selected modalities, build the input info, concatenate the token
sequences, and append the broadcast global tokens (which must agree with the
batch and the encoder token dimension). -/
def MultiViT.process_input (m : MultiViT) (input : ModelInput) :
    Except String ((Nat × Nat × Nat) × InputInfo) :=
  let x : List (String × List Nat) :=
    match input with
    | .tensor t => [("rgb", t)]
    | .dict l => l
  match extractBHW m x with
  | .error e => .error e
  | .ok (B, H, W) =>
    match encodeInputs m.input_adapters x with
    | .error e => .error e
    | .ok encoded =>
      let input_info := generate_input_info
        (encoded.map fun p => (p.1, p.2.2.1)) (H, W) m.num_global_tokens
      match catTokens (encoded.map Prod.snd) with
      | .error e => .error e
      | .ok (b, n, d) =>
        if b = B ∧ d = m.dim_tokens then
          .ok ((B, n + m.num_global_tokens, m.dim_tokens), input_info)
        else
          .error "torch.cat shape mismatch with global tokens"

/-- Output of MultiViT.forward: raw encoder tokens, the list of every layer's
tokens, or the per-task predictions of the output adapters. -/
inductive ForwardOutput where
  | tokens : (Nat × Nat × Nat) → ForwardOutput
  | layers : List (Nat × Nat × Nat) → ForwardOutput
  | preds : List (String × (Nat × Nat × Nat × Nat)) → ForwardOutput
deriving DecidableEq

/-- The dict comprehension at the end of MultiViT.forward: every output
adapter decodes the encoder tokens with the shared input info. -/
def decodeAll (enc : Nat × Nat × Nat) (input_info : InputInfo) :
    List (String × ConvNeXtAdapter) →
    Except String (List (String × (Nat × Nat × Nat × Nat)))
  | [] => .ok []
  | (domain, ad) :: rest =>
    match ad.forward enc.1 enc.2.1 enc.2.2 input_info with
    | .ok p => (decodeAll enc input_info rest).map fun l => (domain, p) :: l
    | .error e => .error e

/-- Shape-level embedding of MultiViT.forward.  With return_all_layers the
encoder tokens are a Python list, so the tensor slicing in a configured
output adapter would fail on it. -/
def MultiViT.forward (m : MultiViT) (input : ModelInput) (return_all_layers : Bool) :
    Except String ForwardOutput :=
  match m.process_input input with
  | .error e => .error e
  | .ok (tokens, input_info) =>
    if return_all_layers then
      match encoderLayers m.dim_tokens m.num_heads m.depth tokens with
      | .error e => .error e
      | .ok ls =>
        match m.output_adapters with
        | none => .ok (.layers ls)
        | some _ => .error "TypeError: list indices must be integers or slices"
    else
      match encoderForward m.dim_tokens m.num_heads m.depth tokens with
      | .error e => .error e
      | .ok enc =>
        match m.output_adapters with
        | none => .ok (.tokens enc)
        | some outs =>
          match decodeAll enc input_info outs with
          | .ok l => .ok (.preds l)
          | .error e => .error e

/-- Embedding of MultiMAE.no_weight_decay: the set starts with global_tokens,
every input adapter (a PatchedInputAdapter, whose no_weight_decay returns the
singleton pos_emb) contributes its prefixed names, and then the code iterates
self.output_adapters.items(), which raises when output_adapters is None.  A
ConvNeXtAdapter has no no_weight_decay attribute, so configured output
adapters contribute nothing. -/
def MultiViT.no_weight_decay (m : MultiViT) : Except String (List String) :=
  match m.output_adapters with
  | none => .error "AttributeError: NoneType has no attribute items"
  | some _ =>
    .ok ("global_tokens" :: m.input_adapters.map fun p => "input_adapters." ++ p.1 ++ ".pos_emb")

/-- Result of torch load_state_dict with strict=False: the updated parameter
list and the structured report of missing and unexpected keys. -/
structure LoadStateResult (α : Type) where
  params : List (String × α)
  missing_keys : List String
  unexpected_keys : List String

/-- Embedding of model.load_state_dict(checkpoint_model, strict=False) over
named parameter lists: parameters found in the checkpoint take the checkpoint
value, parameters absent from the checkpoint keep their current value,
checkpoint entries without a matching parameter are dropped, and the
mismatches are reported rather than raised. -/
def load_state_dict {α : Type} (model_params ckpt : List (String × α)) :
    LoadStateResult α :=
  { params := model_params.map fun p =>
      (p.1,
        match ckpt.lookup p.1 with
        | some w => w
        | none => p.2)
    missing_keys := (model_params.map Prod.fst).filter fun n => (ckpt.lookup n).isNone
    unexpected_keys := (ckpt.map Prod.fst).filter fun n => (model_params.lookup n).isNone }

/-- Embedding of the opt_params loop at the end of MULTIMAE: one record per
named parameter, with lr_scale for the untrained keys and 1.0 otherwise. -/
def build_opt_params {α : Type} (model_params : List (String × α))
    (untrained_keys : List String) (lr_scale : ℚ) : List (String × ℚ) :=
  model_params.map fun p => (p.1, if untrained_keys.contains p.1 then lr_scale else 1)

/-- The rgb input adapter of MULTIMAE with image_size 352, after init(768). -/
def rgbAdapter352 : PatchedInputAdapter :=
  ⟨3, 1, (16, 16), some 768, true, false, (352, 352), 484, 16, 16⟩

/-- The depth input adapter of MULTIMAE with image_size 352, after init(768). -/
def depthAdapter352 : PatchedInputAdapter :=
  ⟨1, 1, (16, 16), some 768, true, false, (352, 352), 484, 16, 16⟩

/-- The semseg output adapter of MULTIMAE, after init(768). -/
def semsegAdapter352 : ConvNeXtAdapter :=
  ⟨1, 6144, 16, ["rgb"], 16, 4, 384, some 768⟩

/-- The MultiViT model of MULTIMAE with image_size 352 (rgb and depth input
adapters, semseg output adapter, one global token, dim 768, depth 12,
12 heads). -/
def multimaeModel352 : MultiViT :=
  ⟨[("rgb", rgbAdapter352), ("depth", depthAdapter352)],
    some [("semseg", semsegAdapter352)], 1, 768, 12, 12⟩

/-- Chaining the constructor calls of MULTIMAE (image_size 352) at shape
level produces exactly the model above. -/
theorem multimaeModel352_construction :
    (match PatchedInputAdapter.create 3 1 16 none true false 352,
        PatchedInputAdapter.create 1 1 16 none true false 352,
        ConvNeXtAdapter.create 1 6144 16 ["rgb"] 16 4 with
      | .ok rgb, .ok depth, .ok semseg =>
        MultiViT.create [("rgb", rgb), ("depth", depth)]
          (some [("semseg", semseg)]) 1 768 12 12
      | _, _, _ => .error "construction failed") = .ok multimaeModel352 := by
  decide

/-! Helper lemmas shared by the claim theorems. -/

/-- buildTaskEntries keeps the domain names unchanged and in order. -/
theorem buildTaskEntries_map_fst (i : Nat) (l : List (String × Nat)) :
    (buildTaskEntries i l).1.map Prod.fst = l.map Prod.fst := by
  induction l generalizing i with
  | nil => rfl
  | cons p rest ih => cases p with
    | mk d n => simp [buildTaskEntries, ih]

/-- The dict comprehension of process_input keeps exactly the domains with a
registered adapter, in input order. -/
theorem encodeSelected_map_fst {α β : Type} (adapter_names : List String)
    (encode : String → List α → List β) (x : List (String × List α)) :
    (encodeSelected adapter_names encode x).map Prod.fst
      = (x.map Prod.fst).filter fun n => adapter_names.contains n := by
  induction x with
  | nil => rfl
  | cons p rest ih => cases p with
    | mk d t =>
      by_cases h : d ∈ adapter_names <;>
        simp only [encodeSelected] at ih ⊢ <;>
          simp [List.filter_cons, h] at ih ⊢ <;>
            exact ih

/-- Every main task of the adapter hitting a missing entry of the input info
tasks makes lookupSlices fail. -/
theorem lookupSlices_error (n : Nat) (tasks : List (String × TaskInfo))
    (l : List String) (task : String) (hmem : task ∈ l)
    (hnone : tasks.lookup task = none) :
    ∃ e, lookupSlices n tasks l = .error e := by
  induction l with
  | nil => cases hmem
  | cons hd tl ih =>
    cases hl : tasks.lookup hd with
    | none =>
      exact ⟨"KeyError: main task is absent from input info", by simp [lookupSlices, hl]⟩
    | some ti =>
      rcases List.mem_cons.mp hmem with rfl | hmem2
      · rw [hl] at hnone
        cases hnone
      · obtain ⟨e, he⟩ := ih hmem2
        exact ⟨e, by simp [lookupSlices, hl, he]⟩

/-- Shape facts about a successful ConvNeXtAdapter.forward: the channel count
is num_classes and the spatial size is exactly the image size of the input
info. -/
theorem convnext_forward_ok_shape (a : ConvNeXtAdapter) (B N D : Nat)
    (input_info : InputInfo) (r : Nat × Nat × Nat × Nat)
    (h : a.forward B N D input_info = .ok r) :
    r.2.1 = a.num_classes ∧ r.2.2.1 = input_info.image_size.1 ∧
      r.2.2.2 = input_info.image_size.2 := by
  unfold ConvNeXtAdapter.forward at h
  cases hAT : a.adapt_tokens B N D input_info with
  | error e => rw [hAT] at h; cases h
  | ok bnd =>
    obtain ⟨b, n, d⟩ := bnd
    rw [hAT] at h
    cases hENC : a.dim_tokens_enc with
    | none => rw [hENC] at h; cases h
    | some enc =>
      rw [hENC] at h
      simp only [] at h
      repeat' split at h
      all_goals first
        | (cases h; exact ⟨rfl, rfl, rfl⟩)
        | (cases h)

/-! Claim theorems. -/

/-- C1: Token fusion assigns contiguous, non-overlapping, zero-based index
ranges in concatenation order: fusing modality A (with tokens ta) and then B
(with tokens tb) records range [0, Na) for A and [Na, Na + Nb) for B, reports
num_task_tokens = Na + Nb (global tokens excluded), and the concatenated
sequence carries the tokens of A then the tokens of B at exactly those
recorded positions. -/
theorem token_fusion_ranges {α : Type} (A B : String) (ta tb : List α)
    (image_size : Nat × Nat) (g : Nat) :
    (generate_input_info (tokenCounts [(A, ta), (B, tb)]) image_size g).tasks
      = [(A, ⟨ta.length, true, 0, ta.length⟩),
         (B, ⟨tb.length, true, ta.length, ta.length + tb.length⟩)] ∧
    (generate_input_info (tokenCounts [(A, ta), (B, tb)]) image_size g).num_task_tokens
      = ta.length + tb.length ∧
    fuseTokens [(A, ta), (B, tb)] = ta ++ tb ∧
    (fuseTokens [(A, ta), (B, tb)]).take ta.length = ta ∧
    ((fuseTokens [(A, ta), (B, tb)]).drop ta.length).take tb.length = tb := by
  refine ⟨?_, ?_, ?_, ?_, ?_⟩ <;>
    simp [generate_input_info, buildTaskEntries, tokenCounts, fuseTokens,
      List.take_left, List.drop_left]

/-- C5: For every grid size and embedding dimension divisible by 4, the
positional embedding generator returns the shape (1, D, h, w); it is a pure
function of its arguments; and it fails when D is not divisible by 4. -/
theorem build_2d_sincos_posemb_contract (h w D : Nat) :
    (D % 4 = 0 → build_2d_sincos_posemb h w D = .ok [1, D, h, w]) ∧
    (D % 4 ≠ 0 → (build_2d_sincos_posemb h w D).isOk = false) ∧
    (∀ h2 w2 D2, h = h2 → w = w2 → D = D2 →
      build_2d_sincos_posemb h w D = build_2d_sincos_posemb h2 w2 D2) := by
  refine ⟨fun hD => ?_, fun hD => ?_, fun h2 w2 D2 e1 e2 e3 => by rw [e1, e2, e3]⟩
  · have h4 : 4 * (D / 4) = D := Nat.mul_div_cancel' (Nat.dvd_of_mod_eq_zero hD)
    simp [build_2d_sincos_posemb, hD, h4, Nat.mul_comm]
  · simp [build_2d_sincos_posemb, hD, Except.isOk, Except.toBool]

/-- Witness for C5 at the MULTIMAE grid 22 x 22 with dimension 768, and at a
dimension 6 not divisible by 4. -/
theorem build_2d_sincos_posemb_contract_witness :
    build_2d_sincos_posemb 22 22 768 = .ok [1, 768, 22, 22] ∧
    (build_2d_sincos_posemb 22 22 6).isOk = false :=
  ⟨(build_2d_sincos_posemb_contract 22 22 768).1 (by decide),
   (build_2d_sincos_posemb_contract 22 22 6).2.1 (by decide)⟩

/-- C2: An initialized patch input adapter encodes a well-formed
(B, C, H, W) input with divisible spatial sizes into exactly
(H / P_H) * (W / P_W) tokens of the initialized dimension; violated
divisibility fails instead of truncating; and encoding before init fails. -/
theorem patch_adapter_encode_contract (a : PatchedInputAdapter) (B C H W : Nat) :
    (∀ D, a.dim_tokens = some D → H % a.P_H = 0 → W % a.P_W = 0 →
      C = a.num_channels → 0 < H → 0 < W →
      0 < a.image_size.1 / (a.stride_level * a.P_H) →
      0 < a.image_size.2 / (a.stride_level * a.P_W) →
      a.forward B C H W = .ok (B, (H / a.P_H) * (W / a.P_W), D)) ∧
    (¬(H % a.P_H = 0 ∧ W % a.P_W = 0) → (a.forward B C H W).isOk = false) ∧
    (a.dim_tokens = none → (a.forward B C H W).isOk = false) := by
  refine ⟨?_, ?_, ?_⟩
  · intro D hD h1 h2 hc hH hW hg1 hg2
    have hPH : 0 < a.P_H := by
      rcases Nat.eq_zero_or_pos a.P_H with h0 | h
      · rw [h0, Nat.mod_zero] at h1
        omega
      · exact h
    have hPW : 0 < a.P_W := by
      rcases Nat.eq_zero_or_pos a.P_W with h0 | h
      · rw [h0, Nat.mod_zero] at h2
        omega
      · exact h
    have hle1 : a.P_H ≤ H := Nat.le_of_dvd hH (Nat.dvd_of_mod_eq_zero h1)
    have hle2 : a.P_W ≤ W := Nat.le_of_dvd hW (Nat.dvd_of_mod_eq_zero h2)
    have hq1 : 0 < H / a.P_H := Nat.div_pos hle1 hPH
    have hq2 : 0 < W / a.P_W := Nat.div_pos hle2 hPW
    simp [PatchedInputAdapter.forward, hD, h1, h2, hc, hle1, hle2, hg1, hg2, hq1, hq2]
  · intro hnd
    cases hdim : a.dim_tokens with
    | none => simp [PatchedInputAdapter.forward, hdim, Except.isOk, Except.toBool]
    | some D => simp [PatchedInputAdapter.forward, hdim, hnd, Except.isOk, Except.toBool]
  · intro hdim
    simp [PatchedInputAdapter.forward, hdim, Except.isOk, Except.toBool]

/-- Witness for C2 on the MULTIMAE rgb adapter: a 352 x 352 input gives 484
tokens, 352 x 350 violates divisibility and fails, and the uninitialized
adapter fails. -/
theorem patch_adapter_encode_contract_witness :
    rgbAdapter352.forward 1 3 352 352 = .ok (1, 484, 768) ∧
    (rgbAdapter352.forward 1 3 352 350).isOk = false ∧
    (({ rgbAdapter352 with dim_tokens := none } : PatchedInputAdapter).forward 1 3 352 352).isOk = false :=
  ⟨(patch_adapter_encode_contract rgbAdapter352 1 3 352 352).1 768 rfl (by decide)
      (by decide) (by decide) (by decide) (by decide) (by decide) (by decide),
   (patch_adapter_encode_contract rgbAdapter352 1 3 352 350).2.1 (by decide),
   (patch_adapter_encode_contract _ 1 3 352 352).2.2 rfl⟩

/-- C9: Modalities without a registered input adapter are silently ignored by
process_input: the encoded map keeps exactly the domains present in both the
input and the adapter map (in input order), prepending an unregistered
modality changes nothing, an unregistered domain never appears in the encoded
map, and the input info tasks list the same filtered domains. -/
theorem unregistered_modalities_ignored {α β : Type} (adapter_names : List String)
    (encode : String → List α → List β) (x : List (String × List α))
    (domain : String) (t : List α) (sz : Nat × Nat) (g : Nat) :
    ((encodeSelected adapter_names encode x).map Prod.fst
      = (x.map Prod.fst).filter fun n => adapter_names.contains n) ∧
    (domain ∉ adapter_names →
      encodeSelected adapter_names encode ((domain, t) :: x)
        = encodeSelected adapter_names encode x) ∧
    (domain ∉ adapter_names →
      ∀ ts, (domain, ts) ∉ encodeSelected adapter_names encode x) ∧
    ((generate_input_info (tokenCounts (encodeSelected adapter_names encode x)) sz g).tasks.map Prod.fst
      = (x.map Prod.fst).filter fun n => adapter_names.contains n) := by
  refine ⟨encodeSelected_map_fst adapter_names encode x, ?_, ?_, ?_⟩
  · intro hc
    simp [encodeSelected, List.filter_cons, hc]
  · intro hc ts hmem
    have h1 : domain ∈ (encodeSelected adapter_names encode x).map Prod.fst :=
      List.mem_map_of_mem Prod.fst hmem
    rw [encodeSelected_map_fst] at h1
    have h2 := List.of_mem_filter h1
    simp at h2
    exact hc h2
  · have := buildTaskEntries_map_fst 0 (tokenCounts (encodeSelected adapter_names encode x))
    calc (generate_input_info (tokenCounts (encodeSelected adapter_names encode x)) sz g).tasks.map Prod.fst
        = (tokenCounts (encodeSelected adapter_names encode x)).map Prod.fst := this
      _ = (encodeSelected adapter_names encode x).map Prod.fst := by
        simp [tokenCounts]
      _ = (x.map Prod.fst).filter fun n => adapter_names.contains n :=
        encodeSelected_map_fst adapter_names encode x

/-- The input info produced by the MULTIMAE forward pass on a 352 x 352 rgb
and depth pair. -/
def info352 : InputInfo := generate_input_info [("rgb", 484), ("depth", 484)] (352, 352) 1

/-- C3: Whenever a ConvNeXtAdapter.forward call succeeds, the spatial size of
its output equals exactly the (H, W) recorded in the input info. -/
theorem convnext_output_matches_input_info (a : ConvNeXtAdapter) (B N D : Nat)
    (input_info : InputInfo) (r : Nat × Nat × Nat × Nat)
    (h : a.forward B N D input_info = .ok r) :
    r.2.2.1 = input_info.image_size.1 ∧ r.2.2.2 = input_info.image_size.2 := by
  have := convnext_forward_ok_shape a B N D input_info r h
  exact ⟨this.2.1, this.2.2⟩

/-- Witness for C3: the MULTIMAE semseg adapter on input info with image size
(352, 352) and patch size 16 yields spatial dims exactly 352 x 352. -/
theorem convnext_output_matches_input_info_witness :
    semsegAdapter352.forward 1 969 768 info352 = .ok (1, 1, 352, 352) ∧
    ((1, 1, 352, 352) : Nat × Nat × Nat × Nat).2.2.1 = info352.image_size.1 ∧
    ((1, 1, 352, 352) : Nat × Nat × Nat × Nat).2.2.2 = info352.image_size.2 :=
  ⟨by decide,
   (convnext_output_matches_input_info semsegAdapter352 1 969 768 info352
      (1, 1, 352, 352) (by decide)).1,
   (convnext_output_matches_input_info semsegAdapter352 1 969 768 info352
      (1, 1, 352, 352) (by decide)).2⟩

/-- C8: ConvNeXtAdapter.forward fails whenever preds_per_patch is not a
perfect square or some configured main task is absent from the input info
task ranges. -/
theorem convnext_forward_fails (a : ConvNeXtAdapter) (B N D : Nat)
    (input_info : InputInfo)
    (h : (∀ s : Nat, s * s ≠ a.preds_per_patch) ∨
      ∃ task ∈ a.main_tasks, input_info.tasks.lookup task = none) :
    (a.forward B N D input_info).isOk = false := by
  rcases h with hsq | ⟨task, hmem, hnone⟩
  · unfold ConvNeXtAdapter.forward
    cases hAT : a.adapt_tokens B N D input_info with
    | error e => simp [Except.isOk, Except.toBool]
    | ok bnd =>
      obtain ⟨b, n, d⟩ := bnd
      cases hENC : a.dim_tokens_enc with
      | none => simp [Except.isOk, Except.toBool]
      | some enc =>
        simp only [Except.isOk, Except.toBool]
        have hs := hsq (intSqrt a.preds_per_patch)
        by_cases h1 : d = enc * a.main_tasks.length
        case neg => simp [h1]
        by_cases h2 : n = input_info.image_size.1 / a.patch_size *
            (input_info.image_size.2 / a.patch_size)
        case neg => simp [h1, h2]
        by_cases h3 : a.preds_per_patch * a.class_dim = a.embed_dim
        case neg => simp [h1, h2, h3]
        by_cases hn0 : n = 0
        · have hNN : input_info.image_size.1 / a.patch_size *
              (input_info.image_size.2 / a.patch_size) = 0 := by omega
          rcases Nat.mul_eq_zero.mp hNN with hz | hz <;>
            by_cases hd0 : 0 < a.depth <;>
              simp [h1, h2, h3, hn0, hz, hd0]
        · have hps : ¬(a.preds_per_patch = intSqrt a.preds_per_patch * intSqrt a.preds_per_patch) :=
            fun he => hs he.symm
          have hNH : ¬(input_info.image_size.1 / a.patch_size = 0) := by
            intro hz
            exact hn0 (by rw [h2, hz, Nat.zero_mul])
          have hNW : ¬(input_info.image_size.2 / a.patch_size = 0) := by
            intro hz
            exact hn0 (by rw [h2, hz, Nat.mul_zero])
          simp [h1, h2, h3, hps, hNH, hNW]
  · obtain ⟨e, he⟩ := lookupSlices_error N input_info.tasks a.main_tasks task hmem hnone
    have hAT : a.adapt_tokens B N D input_info = .error e := by
      simp [ConvNeXtAdapter.adapt_tokens, he]
    simp [ConvNeXtAdapter.forward, hAT, Except.isOk, Except.toBool]

/-- A ConvNeXt adapter configured with main task semseg, which the 352 x 352
rgb and depth input info does not contain. -/
def badMainTaskAdapter : ConvNeXtAdapter := ⟨1, 6144, 16, ["semseg"], 16, 4, 384, some 768⟩

/-- Witness for C8: the adapter requesting the absent main task semseg fails
on the rgb and depth input info. -/
theorem convnext_forward_fails_witness :
    (badMainTaskAdapter.forward 1 969 768 info352).isOk = false :=
  convnext_forward_fails badMainTaskAdapter 1 969 768 info352
    (Or.inr ⟨"semseg", by decide, by decide⟩)

/-- Witness for C9: the modality foo has no adapter in the rgb and depth map,
so it is dropped without error and absent from the encoded map. -/
theorem unregistered_modalities_ignored_witness :
    encodeSelected ["rgb", "depth"] (fun _ l => l) [("foo", [9]), ("rgb", [0, 1])]
      = encodeSelected ["rgb", "depth"] (fun _ l => l) [("rgb", [(0 : Nat), 1])] ∧
    ∀ ts, ("foo", ts) ∉ encodeSelected ["rgb", "depth"] (fun _ l => l) [("rgb", [(0 : Nat), 1])] :=
  ⟨(unregistered_modalities_ignored ["rgb", "depth"] (fun _ l => l) [("rgb", [0, 1])]
      "foo" [9] (352, 352) 1).2.1 (by decide),
   (unregistered_modalities_ignored ["rgb", "depth"] (fun _ l => l) [("rgb", [0, 1])]
      "foo" [9] (352, 352) 1).2.2.1 (by decide)⟩

/-- A successful decodeAll returns one entry per output adapter, in order,
with the channel count of the corresponding adapter's num_classes. -/
theorem decodeAll_spec (enc : Nat × Nat × Nat) (input_info : InputInfo)
    (outs : List (String × ConvNeXtAdapter))
    (l : List (String × (Nat × Nat × Nat × Nat)))
    (h : decodeAll enc input_info outs = .ok l) :
    l.map Prod.fst = outs.map Prod.fst ∧
    ∀ pr ∈ l, ∃ ad, (pr.1, ad) ∈ outs ∧ pr.2.2.1 = ad.num_classes := by
  induction outs generalizing l with
  | nil =>
    cases h
    exact ⟨rfl, fun pr hpr => absurd hpr (List.not_mem_nil pr)⟩
  | cons p rest ih =>
    obtain ⟨domain, ad⟩ := p
    cases hf : ad.forward enc.1 enc.2.1 enc.2.2 input_info with
    | error e =>
      rw [show decodeAll enc input_info ((domain, ad) :: rest)
          = .error e by simp [decodeAll, hf]] at h
      cases h
    | ok pr =>
      cases hrest : decodeAll enc input_info rest with
      | error e =>
        rw [show decodeAll enc input_info ((domain, ad) :: rest)
            = .error e by simp [decodeAll, hf, hrest, Except.map]] at h
        cases h
      | ok l2 =>
        rw [show decodeAll enc input_info ((domain, ad) :: rest)
            = .ok ((domain, pr) :: l2) by simp [decodeAll, hf, hrest, Except.map]] at h
        cases h
        obtain ⟨ih1, ih2⟩ := ih l2 hrest
        constructor
        · simp [ih1]
        · intro q hq
          rcases List.mem_cons.mp hq with rfl | hq2
          · exact ⟨ad, List.mem_cons_self _ _,
              (convnext_forward_ok_shape ad enc.1 enc.2.1 enc.2.2 input_info pr hf).1⟩
          · obtain ⟨ad2, hmem2, hcls2⟩ := ih2 q hq2
            exact ⟨ad2, List.mem_cons_of_mem _ hmem2, hcls2⟩

/-- C4: MultiViT.forward treats a bare tensor as the rgb modality; with
output adapters configured, a successful forward returns one decoded
prediction per output adapter (keyed by that adapter's name, with
num_classes channels); with no output adapters it returns the raw encoder
tokens, or every layer's tokens under the return-all-layers flag; and the
end-to-end MULTIMAE scenario (rgb 3-channel and depth 1-channel 352 x 352
inputs, depth 12, dim 768, 12 heads, one-class semseg adapter) yields the
mapping with key semseg of shape (1, 1, 352, 352). -/
theorem multivit_forward_contract (m : MultiViT) (input : ModelInput) (rl : Bool) :
    (∀ t, m.forward (.tensor t) rl = m.forward (.dict [("rgb", t)]) rl) ∧
    (∀ outs r, m.output_adapters = some outs → m.forward input rl = .ok r →
      ∃ l, r = .preds l ∧ l.map Prod.fst = outs.map Prod.fst ∧
        ∀ pr ∈ l, ∃ ad, (pr.1, ad) ∈ outs ∧ pr.2.2.1 = ad.num_classes) ∧
    (m.output_adapters = none → rl = false → ∀ r, m.forward input rl = .ok r →
      ∃ t2, r = .tokens t2) ∧
    (m.output_adapters = none → rl = true → ∀ r, m.forward input rl = .ok r →
      ∃ ls, r = .layers ls) ∧
    (multimaeModel352.forward
        (.dict [("rgb", [1, 3, 352, 352]), ("depth", [1, 1, 352, 352])]) false
      = .ok (.preds [("semseg", (1, 1, 352, 352))])) := by
  refine ⟨fun t => rfl, ?_, ?_, ?_, by decide⟩
  · intro outs r houts hfwd
    unfold MultiViT.forward at hfwd
    cases hpi : m.process_input input with
    | error e => rw [hpi] at hfwd; cases hfwd
    | ok ti =>
      obtain ⟨tokens, input_info⟩ := ti
      rw [hpi] at hfwd
      cases rl with
      | true =>
        simp only [if_pos] at hfwd
        cases hel : encoderLayers m.dim_tokens m.num_heads m.depth tokens with
        | error e => rw [hel] at hfwd; cases hfwd
        | ok ls => rw [hel, houts] at hfwd; cases hfwd
      | false =>
        simp only [Bool.false_eq_true, if_false] at hfwd
        cases henc : encoderForward m.dim_tokens m.num_heads m.depth tokens with
        | error e => rw [henc] at hfwd; cases hfwd
        | ok enc =>
          rw [henc, houts] at hfwd
          dsimp only at hfwd
          cases hdec : decodeAll enc input_info outs with
          | error e => rw [hdec] at hfwd; cases hfwd
          | ok l =>
            rw [hdec] at hfwd
            cases hfwd
            obtain ⟨h1, h2⟩ := decodeAll_spec enc input_info outs l hdec
            exact ⟨l, rfl, h1, h2⟩
  · intro houts hrl r hfwd
    subst hrl
    unfold MultiViT.forward at hfwd
    cases hpi : m.process_input input with
    | error e => rw [hpi] at hfwd; cases hfwd
    | ok ti =>
      obtain ⟨tokens, input_info⟩ := ti
      rw [hpi] at hfwd
      simp only [Bool.false_eq_true, if_false] at hfwd
      cases henc : encoderForward m.dim_tokens m.num_heads m.depth tokens with
      | error e => rw [henc] at hfwd; cases hfwd
      | ok enc =>
        rw [henc, houts] at hfwd
        cases hfwd
        exact ⟨enc, rfl⟩
  · intro houts hrl r hfwd
    subst hrl
    unfold MultiViT.forward at hfwd
    cases hpi : m.process_input input with
    | error e => rw [hpi] at hfwd; cases hfwd
    | ok ti =>
      obtain ⟨tokens, input_info⟩ := ti
      rw [hpi] at hfwd
      simp only [if_pos] at hfwd
      cases hel : encoderLayers m.dim_tokens m.num_heads m.depth tokens with
      | error e => rw [hel] at hfwd; cases hfwd
      | ok ls =>
        rw [hel, houts] at hfwd
        cases hfwd
        exact ⟨ls, rfl⟩

/-- Witness for C4 with the MULTIMAE model on the end-to-end 352 x 352 rgb
and depth scenario. -/
theorem multivit_forward_contract_witness :
    ∃ l, (ForwardOutput.preds [("semseg", (1, 1, 352, 352))]) = .preds l ∧
      l.map Prod.fst = [("semseg", semsegAdapter352)].map Prod.fst ∧
      ∀ pr ∈ l, ∃ ad, (pr.1, ad) ∈ [("semseg", semsegAdapter352)] ∧
        pr.2.2.1 = ad.num_classes :=
  (multivit_forward_contract multimaeModel352
      (.dict [("rgb", [1, 3, 352, 352]), ("depth", [1, 1, 352, 352])]) false).2.1
    [("semseg", semsegAdapter352)] (.preds [("semseg", (1, 1, 352, 352))]) rfl (by decide)

/-- C7 counterexample: constructing an Attention block with dim 10 and 3
heads, so that 10 % 3 is nonzero, succeeds instead of failing at
construction time. -/
theorem attention_construction_does_not_check_divisibility :
    10 % 3 ≠ 0 ∧ (Attention.create 10 3).isOk = true := by
  decide

/-- C7 amended: Attention construction performs no divisibility check (it
succeeds whenever num_heads is nonzero and dim / num_heads is positive,
computing head_dim by floor division); when dim is not divisible by
num_heads, the failure instead surfaces at forward time, where the reshape of
a nonempty (B, N, dim) input fails. -/
theorem attention_divisibility_fails_at_forward (dim num_heads : Nat)
    (hh : num_heads ≠ 0) (hd : dim / num_heads ≠ 0)
    (hmod : dim % num_heads ≠ 0) :
    ∃ a, Attention.create dim num_heads = .ok a ∧
      ∀ B N, 0 < B → 0 < N → (a.forward B N dim).isOk = false := by
  refine ⟨⟨dim, num_heads, dim / num_heads⟩, ?_, ?_⟩
  · simp [Attention.create, hh, hd]
  · intro B N hB hN
    have hdm := Nat.div_add_mod dim num_heads
    have hneq : 3 * dim ≠ 3 * (num_heads * (dim / num_heads)) := by omega
    have hBN : 0 < B * N := Nat.mul_pos hB hN
    have hmain : B * N * (3 * dim) ≠ B * N * (3 * (num_heads * (dim / num_heads))) := by
      intro heq
      exact hneq (Nat.eq_of_mul_eq_mul_left hBN heq)
    simp [Attention.forward, hmain, Except.isOk, Except.toBool]

/-- Witness for the amended C7 at dim 10 and 3 heads: construction succeeds
and forward on a one-token batch fails. -/
theorem attention_divisibility_fails_at_forward_witness :
    ∃ a, Attention.create 10 3 = .ok a ∧
      ∀ B N, 0 < B → 0 < N → (a.forward B N 10).isOk = false :=
  attention_divisibility_fails_at_forward 10 3 (by decide) (by decide) (by decide)

/-- The MULTIMAE model with output adapters removed. -/
def noOutputModel352 : MultiViT := { multimaeModel352 with output_adapters := none }

/-- C10: no_weight_decay raises when output_adapters is None (the code
iterates the None mapping); with output adapters configured it returns a set
containing global_tokens and the prefixed pos_emb name of every input adapter
task. -/
theorem no_weight_decay_contract (m : MultiViT) :
    (m.output_adapters = none → (m.no_weight_decay).isOk = false) ∧
    (∀ outs, m.output_adapters = some outs →
      ∃ l, m.no_weight_decay = .ok l ∧ "global_tokens" ∈ l ∧
        ∀ p ∈ m.input_adapters, ("input_adapters." ++ p.1 ++ ".pos_emb") ∈ l) := by
  constructor
  · intro h
    simp [MultiViT.no_weight_decay, h, Except.isOk, Except.toBool]
  · intro outs h
    refine ⟨"global_tokens" :: m.input_adapters.map fun p => "input_adapters." ++ p.1 ++ ".pos_emb",
      ?_, List.mem_cons_self _ _, ?_⟩
    · simp [MultiViT.no_weight_decay, h]
    · intro p hp
      exact List.mem_cons_of_mem _
        (List.mem_map_of_mem (fun q => "input_adapters." ++ q.1 ++ ".pos_emb") hp)

/-- Mapping only the values of an association list keeps the keys. -/
theorem map_value_map_fst {α β : Type} (f : String → α → β) (l : List (String × α)) :
    (l.map fun p => (p.1, f p.1 p.2)).map Prod.fst = l.map Prod.fst := by
  induction l with
  | nil => rfl
  | cons p rest ih => simp [ih]

/-- Lookup through a value-only map of an association list. -/
theorem lookup_map_value {α β : Type} (f : String → α → β) (l : List (String × α))
    (n : String) :
    (l.map fun p => (p.1, f p.1 p.2)).lookup n = (l.lookup n).map (f n) := by
  induction l with
  | nil => rfl
  | cons p rest ih =>
    by_cases h : n = p.1
    · simp [List.lookup, h, ih]
    · have hb : (n == p.1) = false := beq_false_of_ne h
      simp [List.lookup, hb, ih]

/-- A key occurring among the keys of an association list has a lookup
value. -/
theorem exists_lookup_of_mem_fst {α : Type} (l : List (String × α)) (n : String)
    (h : n ∈ l.map Prod.fst) : ∃ v, l.lookup n = some v := by
  induction l with
  | nil => cases h
  | cons p rest ih =>
    by_cases hk : n = p.1
    · exact ⟨p.2, by simp [List.lookup, hk]⟩
    · rcases List.mem_cons.mp h with he | hm
      · exact absurd he hk
      · obtain ⟨v, hv⟩ := ih hm
        have hb : (n == p.1) = false := beq_false_of_ne hk
        exact ⟨v, by simp [List.lookup, hb, hv]⟩

/-- C6: Non-strict checkpoint loading never fails on key mismatches:
checkpoint entries without a model parameter are dropped (the model keeps
exactly its own keys), model parameters absent from the checkpoint keep
their initialized values, matched parameters take the checkpoint values,
missing and unexpected keys are exactly characterized by the structured
report, and the exposed optimizer parameter groups list every named model
parameter exactly once, with lr_scale on the unmatched parameters and 1 on
every checkpoint-restored parameter. -/
theorem checkpoint_loading_contract {α : Type} (model_params ckpt : List (String × α))
    (lr_scale : ℚ) (hnodup : (model_params.map Prod.fst).Nodup) :
    ((load_state_dict model_params ckpt).params.map Prod.fst = model_params.map Prod.fst) ∧
    (∀ n, ckpt.lookup n = none →
      (load_state_dict model_params ckpt).params.lookup n = model_params.lookup n) ∧
    (∀ n v w, model_params.lookup n = some v → ckpt.lookup n = some w →
      (load_state_dict model_params ckpt).params.lookup n = some w) ∧
    (∀ n, n ∈ (load_state_dict model_params ckpt).missing_keys ↔
      (n ∈ model_params.map Prod.fst ∧ ckpt.lookup n = none)) ∧
    (∀ n, n ∈ (load_state_dict model_params ckpt).unexpected_keys ↔
      (n ∈ ckpt.map Prod.fst ∧ model_params.lookup n = none)) ∧
    ((build_opt_params (load_state_dict model_params ckpt).params
        ((load_state_dict model_params ckpt).missing_keys
          ++ (load_state_dict model_params ckpt).unexpected_keys) lr_scale).map Prod.fst
      = model_params.map Prod.fst) ∧
    (∀ n, n ∈ model_params.map Prod.fst →
      ((build_opt_params (load_state_dict model_params ckpt).params
          ((load_state_dict model_params ckpt).missing_keys
            ++ (load_state_dict model_params ckpt).unexpected_keys) lr_scale).map Prod.fst).count n
        = 1) ∧
    (∀ n, n ∈ (load_state_dict model_params ckpt).missing_keys →
      (build_opt_params (load_state_dict model_params ckpt).params
          ((load_state_dict model_params ckpt).missing_keys
            ++ (load_state_dict model_params ckpt).unexpected_keys) lr_scale).lookup n
        = some lr_scale) ∧
    (∀ n v w, model_params.lookup n = some v → ckpt.lookup n = some w →
      (build_opt_params (load_state_dict model_params ckpt).params
          ((load_state_dict model_params ckpt).missing_keys
            ++ (load_state_dict model_params ckpt).unexpected_keys) lr_scale).lookup n
        = some 1) := by
  have hkeys : (load_state_dict model_params ckpt).params.map Prod.fst
      = model_params.map Prod.fst :=
    map_value_map_fst
      (fun k v => match ckpt.lookup k with | some w => w | none => v) model_params
  have hlook : ∀ n, (load_state_dict model_params ckpt).params.lookup n
      = (model_params.lookup n).map fun v =>
          match ckpt.lookup n with
          | some w => w
          | none => v := by
    intro n
    exact lookup_map_value
      (fun k (v : α) =>
        (match ckpt.lookup k with
          | some w => w
          | none => v : α)) model_params n
  have hmiss : ∀ n, n ∈ (load_state_dict model_params ckpt).missing_keys ↔
      (n ∈ model_params.map Prod.fst ∧ ckpt.lookup n = none) := by
    intro n
    simp [load_state_dict, List.mem_filter, Option.isNone_iff_eq_none]
  have hunexp : ∀ n, n ∈ (load_state_dict model_params ckpt).unexpected_keys ↔
      (n ∈ ckpt.map Prod.fst ∧ model_params.lookup n = none) := by
    intro n
    simp [load_state_dict, List.mem_filter, Option.isNone_iff_eq_none]
  have hoptlook : ∀ n, (build_opt_params (load_state_dict model_params ckpt).params
      ((load_state_dict model_params ckpt).missing_keys
        ++ (load_state_dict model_params ckpt).unexpected_keys) lr_scale).lookup n
      = ((load_state_dict model_params ckpt).params.lookup n).map fun _ =>
          if ((load_state_dict model_params ckpt).missing_keys
              ++ (load_state_dict model_params ckpt).unexpected_keys).contains n
          then lr_scale else 1 :=
    fun n => lookup_map_value
      (fun k (_ : α) => if (((load_state_dict model_params ckpt).missing_keys
        ++ (load_state_dict model_params ckpt).unexpected_keys).contains k)
        then lr_scale else 1)
      (load_state_dict model_params ckpt).params n
  have hoptkeys : (build_opt_params (load_state_dict model_params ckpt).params
      ((load_state_dict model_params ckpt).missing_keys
        ++ (load_state_dict model_params ckpt).unexpected_keys) lr_scale).map Prod.fst
      = model_params.map Prod.fst := by
    have h1 := map_value_map_fst
      (fun k (_ : α) => if (((load_state_dict model_params ckpt).missing_keys
        ++ (load_state_dict model_params ckpt).unexpected_keys).contains k)
        then lr_scale else (1 : ℚ))
      (load_state_dict model_params ckpt).params
    exact h1.trans hkeys
  refine ⟨hkeys, ?_, ?_, hmiss, hunexp, hoptkeys, ?_, ?_, ?_⟩
  · intro n hnone
    rw [hlook n, hnone]
    cases model_params.lookup n <;> rfl
  · intro n v w hv hw
    rw [hlook n, hv, hw]
    rfl
  · intro n hn
    rw [hoptkeys]
    exact List.count_eq_one_of_mem hnodup hn
  · intro n hn
    obtain ⟨hmem, hnone⟩ := (hmiss n).mp hn
    obtain ⟨v, hv⟩ := exists_lookup_of_mem_fst model_params n hmem
    have hcontains : (((load_state_dict model_params ckpt).missing_keys
        ++ (load_state_dict model_params ckpt).unexpected_keys).contains n) = true := by
      simp [List.mem_append]
      exact Or.inl hn
    rw [hoptlook n, hlook n, hv, hnone]
    simp only [Option.map_some']
    rw [if_pos hcontains]
  · intro n v w hv hw
    have hnm : n ∉ (load_state_dict model_params ckpt).missing_keys := by
      intro hc
      rw [((hmiss n).mp hc).2] at hw
      cases hw
    have hnu : n ∉ (load_state_dict model_params ckpt).unexpected_keys := by
      intro hc
      rw [((hunexp n).mp hc).2] at hv
      cases hv
    have hcontains : (((load_state_dict model_params ckpt).missing_keys
        ++ (load_state_dict model_params ckpt).unexpected_keys).contains n) = false := by
      simp [List.mem_append, hnm, hnu]
    have hcond : ¬((((load_state_dict model_params ckpt).missing_keys
        ++ (load_state_dict model_params ckpt).unexpected_keys).contains n) = true) := by
      rw [hcontains]
      exact Bool.false_ne_true
    rw [hoptlook n, hlook n, hv, hw]
    simp only [Option.map_some']
    rw [if_neg hcond]

/-- Witness for C6 on a tiny concrete model and checkpoint: parameter b is
restored with scale 1, parameter a is missing and gets lr_scale 10, and the
checkpoint-only key c is dropped. -/
theorem checkpoint_loading_contract_witness :
    ((load_state_dict [("a", 0), ("b", 1)] [("b", 5), ("c", 7)]).params.map Prod.fst
      = [("a", (0 : Nat)), ("b", 1)].map Prod.fst) ∧
    (build_opt_params (load_state_dict [("a", 0), ("b", 1)] [("b", 5), ("c", 7)]).params
        ((load_state_dict [("a", 0), ("b", 1)] [("b", 5), ("c", 7)]).missing_keys
          ++ (load_state_dict [("a", (0 : Nat)), ("b", 1)] [("b", 5), ("c", 7)]).unexpected_keys)
        10).lookup "a" = some 10 ∧
    (build_opt_params (load_state_dict [("a", 0), ("b", 1)] [("b", 5), ("c", 7)]).params
        ((load_state_dict [("a", 0), ("b", 1)] [("b", 5), ("c", 7)]).missing_keys
          ++ (load_state_dict [("a", (0 : Nat)), ("b", 1)] [("b", 5), ("c", 7)]).unexpected_keys)
        10).lookup "b" = some 1 :=
  ⟨(checkpoint_loading_contract [("a", 0), ("b", 1)] [("b", 5), ("c", 7)] 10 (by decide)).1,
   (checkpoint_loading_contract [("a", 0), ("b", 1)] [("b", 5), ("c", 7)] 10
      (by decide)).2.2.2.2.2.2.2.1 "a" (by decide),
   (checkpoint_loading_contract [("a", 0), ("b", 1)] [("b", 5), ("c", 7)] 10
      (by decide)).2.2.2.2.2.2.2.2 "b" 1 5 (by decide) (by decide)⟩

/-- Witness for C10 on the MULTIMAE model: without output adapters
no_weight_decay fails; with them it returns a set containing global_tokens
and the pos_emb names of the rgb and depth adapters. -/
theorem no_weight_decay_contract_witness :
    (noOutputModel352.no_weight_decay).isOk = false ∧
    ∃ l, multimaeModel352.no_weight_decay = .ok l ∧ "global_tokens" ∈ l ∧
      ∀ p ∈ multimaeModel352.input_adapters, ("input_adapters." ++ p.1 ++ ".pos_emb") ∈ l :=
  ⟨(no_weight_decay_contract noOutputModel352).1 rfl,
   (no_weight_decay_contract multimaeModel352).2 [("semseg", semsegAdapter352)] rfl⟩

end MultiMAE
